import Mathlib

/-
  Shallow embedding of distkeras/trainers.py (module distkeras.trainers).

  The external Spark Dataset capability is modeled as a partition count
  together with a log of the transforms applied to the handle (every
  transform returns a new handle).  Keras models, losses, optimizers and
  column names are opaque tokens (Nat).  Wall-clock time (time.time()) is
  passed in explicitly as an Int.  Python exceptions are modeled by an
  Except return with an explicit error kind.
-/

namespace DistKeras

/-- Python exceptions that the modeled control flow can raise. -/
inductive PyError where
  /-- TypeError raised when the boolean shuffle parameter, which shadows
      the shuffle helper imported from distkeras.utils, is called as a
      function in the body of train. -/
  | typeErrorBoolNotCallable : PyError
  /-- NotImplementedError. -/
  | notImplementedError : PyError
  /-- AttributeError raised by attribute access on None. -/
  | attributeErrorNone : PyError
  /-- A failure raised by a worker function during an epoch dispatch. -/
  | workerError : PyError
deriving DecidableEq, Repr

/-- A transform applied to a Spark dataframe handle. -/
inductive DatasetOp where
  | coalesceOp : Nat → DatasetOp
  | repartitionOp : Nat → DatasetOp
deriving DecidableEq, Repr

/-- The external Dataset capability: a dataframe handle carrying its
    partition count and the log of transforms that produced it (newest
    first).  Transforms are pure: they return a new handle. -/
structure Dataset where
  numPartitions : Nat
  ops : List DatasetOp
deriving DecidableEq, Repr

/-- Spark coalesce: merges partitions down to at most n; it never
    increases the partition count. -/
def Dataset.coalesce (df : Dataset) (n : Nat) : Dataset :=
  { numPartitions := min df.numPartitions n,
    ops := DatasetOp.coalesceOp n :: df.ops }

/-- Spark repartition: redistributes to exactly n partitions. -/
def Dataset.repartition (df : Dataset) (n : Nat) : Dataset :=
  { numPartitions := n,
    ops := DatasetOp.repartitionOp n :: df.ops }

/-- State of the base Trainer class (trainers.py lines 20-55). -/
structure Trainer where
  /-- serialize_keras_model(keras_model); serialization is opaque. -/
  master_model : Nat
  loss : Nat
  worker_optimizer : Nat
  history : List Int
  training_time_start : Int
  training_time_end : Int
  training_time : Int
deriving DecidableEq, Repr

/-- Trainer.__init__(keras_model, loss, worker_optimizer). -/
def Trainer.mk_init (keras_model loss worker_optimizer : Nat) : Trainer :=
  { master_model := keras_model
    loss := loss
    worker_optimizer := worker_optimizer
    history := []
    training_time_start := 0
    training_time_end := 0
    training_time := 0 }

/-- Trainer.record_training_start; now is the value of time.time(). -/
def Trainer.record_training_start (t : Trainer) (now : Int) : Trainer :=
  { t with training_time := 0, training_time_start := now }

/-- Trainer.record_training_end; now is the value of time.time(). -/
def Trainer.record_training_end (t : Trainer) (now : Int) : Trainer :=
  { t with training_time_end := now,
           training_time := now - t.training_time_start }

/-- Trainer.get_training_time. -/
def Trainer.get_training_time (t : Trainer) : Int :=
  t.training_time

/-- Trainer.get_history. -/
def Trainer.get_history (t : Trainer) : List Int :=
  t.history

/-- Trainer.set_history. -/
def Trainer.set_history (t : Trainer) (history : List Int) : Trainer :=
  { t with history := history }

/-- Trainer.has_history. -/
def Trainer.has_history (t : Trainer) : Bool :=
  t.history.length > 0

/-- Trainer.add_history: self.history.append(history). -/
def Trainer.add_history (t : Trainer) (record : Int) : Trainer :=
  { t with history := t.history ++ [record] }

/-- Result of one call to a train method: the trainer state after the
    call, the dataframe handle the call last operated on, the number of
    per-partition worker invocations dispatched, and the outcome (ok, or
    the propagated Python error). -/
structure TrainRun (T : Type) where
  trainer : T
  dataframe : Dataset
  invocations : Nat
  outcome : Except PyError Unit
deriving Repr

/-- State of ModelAveragingTrainer (trainers.py lines 57-79). -/
structure ModelAveragingTrainer extends Trainer where
  features_column : Nat
  label_column : Nat
  num_epoch : Nat
  batch_size : Nat
  num_workers : Nat
deriving DecidableEq, Repr

/-- ModelAveragingTrainer.__init__. -/
def ModelAveragingTrainer.mk_init (keras_model loss worker_optimizer
    num_workers features_col label_col num_epoch batch_size : Nat) :
    ModelAveragingTrainer :=
  { toTrainer := Trainer.mk_init keras_model loss worker_optimizer
    features_column := features_col
    label_column := label_col
    num_epoch := num_epoch
    batch_size := batch_size
    num_workers := num_workers }

/-- ModelAveragingTrainer.train (lines 68-79).  With shuffle=True the
    statement dataframe = shuffle(dataframe) calls the boolean parameter
    shuffle (which shadows the shuffle helper from distkeras.utils) and
    raises TypeError.  Otherwise it repartitions to num_workers * 10,
    records the training start, and raises NotImplementedError; the
    record_training_end call after the raise is dead code. -/
def ModelAveragingTrainer.train (s : ModelAveragingTrainer) (df : Dataset)
    (shuffle : Bool) (tStart : Int) : TrainRun ModelAveragingTrainer :=
  if shuffle then
    { trainer := s, dataframe := df, invocations := 0,
      outcome := Except.error PyError.typeErrorBoolNotCallable }
  else
    let df := df.repartition (s.num_workers * 10)
    let s := { s with toTrainer := s.toTrainer.record_training_start tStart }
    { trainer := s, dataframe := df, invocations := 0,
      outcome := Except.error PyError.notImplementedError }

/-- State of DistributedTrainer (trainers.py lines 117-184).  The
    parameter server object and its service thread are opaque; only
    their presence (None or not) matters to the modeled control flow. -/
structure DistributedTrainer extends Trainer where
  num_workers : Nat
  batch_size : Nat
  features_column : Nat
  label_column : Nat
  num_epoch : Nat
  parameter_server : Option Unit
  parameter_server_thread : Option Unit
deriving DecidableEq, Repr

/-- DistributedTrainer.__init__. -/
def DistributedTrainer.mk_init (keras_model worker_optimizer loss
    num_workers batch_size features_col label_col num_epoch : Nat) :
    DistributedTrainer :=
  { toTrainer := Trainer.mk_init keras_model loss worker_optimizer
    num_workers := num_workers
    batch_size := batch_size
    features_column := features_col
    label_column := label_col
    num_epoch := num_epoch
    parameter_server := none
    parameter_server_thread := none }

/-- DistributedTrainer.stop_service (lines 143-146):
    self.parameter_server.stop() raises AttributeError when
    parameter_server is None; self.parameter_server_thread.join() raises
    AttributeError when the thread is None; otherwise the thread is
    joined and the handle set to None. -/
def DistributedTrainer.stop_service (s : DistributedTrainer) :
    Except PyError DistributedTrainer :=
  match s.parameter_server with
  | none => Except.error PyError.attributeErrorNone
  | some _ =>
    match s.parameter_server_thread with
    | none => Except.error PyError.attributeErrorNone
    | some _ => Except.ok { s with parameter_server_thread := none }

/-- DistributedTrainer.start_service (lines 148-155): if a thread is
    already allocated, stop it first; then allocate and start a new one. -/
def DistributedTrainer.start_service (s : DistributedTrainer) :
    Except PyError DistributedTrainer :=
  match s.parameter_server_thread with
  | some _ =>
    match s.stop_service with
    | Except.error e => Except.error e
    | Except.ok s2 => Except.ok { s2 with parameter_server_thread := some () }
  | none => Except.ok { s with parameter_server_thread := some () }

/-- The epoch loop shared by the distributed train methods: numEpoch
    sequential rounds starting at epoch index i; each round dispatches
    the worker function over numPart partitions in parallel and collects
    the results.  epochFails tells whether the dispatch of a given epoch
    raises a worker failure; the loop stops at the first failure.
    Returns the total number of per-partition worker invocations and the
    outcome. -/
def runEpochs (epochFails : Nat → Bool) (numPart : Nat) :
    Nat → Nat → Nat × Except PyError Unit
  | _, 0 => (0, Except.ok ())
  | i, numEpoch + 1 =>
    if epochFails i then
      (numPart, Except.error PyError.workerError)
    else
      let r := runEpochs epochFails numPart (i + 1) numEpoch
      (numPart + r.1, r.2)

/-- DistributedTrainer.train (lines 157-184).  The per-partition worker
    behavior is external; epochFails says whether the dispatch of epoch
    i raises.  tStart and tEnd are the two time.time() readings.  Note
    the order of operations in the source: the partition count is read
    before the shuffle branch; with shuffle=True the call
    shuffle(dataframe) invokes the boolean parameter and raises
    TypeError; on a worker failure the error propagates with no
    stop_service call. -/
def DistributedTrainer.train (s : DistributedTrainer) (df : Dataset)
    (shuffle : Bool) (epochFails : Nat → Bool) (tStart tEnd : Int) :
    TrainRun DistributedTrainer :=
  let s := { s with parameter_server := some () }
  match s.start_service with
  | Except.error e =>
    { trainer := s, dataframe := df, invocations := 0, outcome := Except.error e }
  | Except.ok s =>
    let num_partitions := df.numPartitions
    if shuffle then
      { trainer := s, dataframe := df, invocations := 0,
        outcome := Except.error PyError.typeErrorBoolNotCallable }
    else
      let df := if num_partitions > s.num_workers then
                  df.coalesce s.num_workers
                else
                  df.repartition s.num_workers
      let s := { s with toTrainer := s.toTrainer.record_training_start tStart }
      let r := runEpochs epochFails df.numPartitions 0 s.num_epoch
      match r.2 with
      | Except.error e =>
        { trainer := s, dataframe := df, invocations := r.1,
          outcome := Except.error e }
      | Except.ok _ =>
        let s := { s with toTrainer := s.toTrainer.record_training_end tEnd }
        match s.stop_service with
        | Except.error e =>
          { trainer := s, dataframe := df, invocations := r.1,
            outcome := Except.error e }
        | Except.ok s2 =>
          { trainer := s2, dataframe := df, invocations := r.1,
            outcome := Except.ok () }

/-- State of AsynchronousDistributedTrainer (lines 186-231). -/
structure AsynchronousDistributedTrainer extends DistributedTrainer where
  parallelism_factor : Nat
deriving DecidableEq, Repr

/-- AsynchronousDistributedTrainer.__init__: the parallelism factor is
    set to 2. -/
def AsynchronousDistributedTrainer.mk_init (keras_model worker_optimizer loss
    num_workers batch_size features_col label_col num_epoch : Nat) :
    AsynchronousDistributedTrainer :=
  { toDistributedTrainer :=
      DistributedTrainer.mk_init keras_model worker_optimizer loss
        num_workers batch_size features_col label_col num_epoch
    parallelism_factor := 2 }

/-- AsynchronousDistributedTrainer.set_parallelism_factor. -/
def AsynchronousDistributedTrainer.set_parallelism_factor
    (s : AsynchronousDistributedTrainer) (factor : Nat) :
    AsynchronousDistributedTrainer :=
  { s with parallelism_factor := factor }

/-- AsynchronousDistributedTrainer.get_parallelism_factor. -/
def AsynchronousDistributedTrainer.get_parallelism_factor
    (s : AsynchronousDistributedTrainer) : Nat :=
  s.parallelism_factor

/-- AsynchronousDistributedTrainer.train (lines 202-231): identical to
    the base train except the partition target is
    parallelism_factor * num_workers. -/
def AsynchronousDistributedTrainer.train (s : AsynchronousDistributedTrainer)
    (df : Dataset) (shuffle : Bool) (epochFails : Nat → Bool)
    (tStart tEnd : Int) : TrainRun AsynchronousDistributedTrainer :=
  let s := { s with parameter_server := some () }
  match s.toDistributedTrainer.start_service with
  | Except.error e =>
    { trainer := s, dataframe := df, invocations := 0, outcome := Except.error e }
  | Except.ok d =>
    let s := { s with toDistributedTrainer := d }
    let num_partitions := df.numPartitions
    if shuffle then
      { trainer := s, dataframe := df, invocations := 0,
        outcome := Except.error PyError.typeErrorBoolNotCallable }
    else
      let parallelism := s.parallelism_factor * s.num_workers
      let df := if num_partitions > parallelism then
                  df.coalesce parallelism
                else
                  df.repartition parallelism
      let s := { s with toTrainer := s.toTrainer.record_training_start tStart }
      let r := runEpochs epochFails df.numPartitions 0 s.num_epoch
      match r.2 with
      | Except.error e =>
        { trainer := s, dataframe := df, invocations := r.1,
          outcome := Except.error e }
      | Except.ok _ =>
        let s := { s with toTrainer := s.toTrainer.record_training_end tEnd }
        match s.toDistributedTrainer.stop_service with
        | Except.error e =>
          { trainer := s, dataframe := df, invocations := r.1,
            outcome := Except.error e }
        | Except.ok d2 =>
          { trainer := { s with toDistributedTrainer := d2 }, dataframe := df,
            invocations := r.1, outcome := Except.ok () }

/-- State of DOWNPOUR (trainers.py lines 233-258).  Hyperparameters are
    Python floats and ints, modeled as Rat and Int; the host address
    returned by determine_host_address() is an opaque token passed in. -/
structure DOWNPOUR extends AsynchronousDistributedTrainer where
  learning_rate : Rat
  communication_window : Int
  master_host : Nat
  master_port : Nat
deriving DecidableEq, Repr

/-- DOWNPOUR.__init__: stores the hyperparameters unchanged; no
    validation is performed. -/
def DOWNPOUR.mk_init (keras_model worker_optimizer loss
    num_workers batch_size features_col label_col num_epoch : Nat)
    (learning_rate : Rat) (communication_window : Int) (host : Nat) :
    DOWNPOUR :=
  { toAsynchronousDistributedTrainer :=
      AsynchronousDistributedTrainer.mk_init keras_model worker_optimizer loss
        num_workers batch_size features_col label_col num_epoch
    learning_rate := learning_rate
    communication_window := communication_window
    master_host := host
    master_port := 5000 }

/-- DOWNPOUR inherits train from AsynchronousDistributedTrainer. -/
def DOWNPOUR.train (s : DOWNPOUR) (df : Dataset) (shuffle : Bool)
    (epochFails : Nat → Bool) (tStart tEnd : Int) :
    TrainRun AsynchronousDistributedTrainer :=
  s.toAsynchronousDistributedTrainer.train df shuffle epochFails tStart tEnd

/-- State of DOWNPOURSocket (trainers.py lines 260-285). -/
structure DOWNPOURSocket extends AsynchronousDistributedTrainer where
  learning_rate : Rat
  communication_window : Int
  master_host : Nat
  master_port : Nat
deriving DecidableEq, Repr

/-- DOWNPOURSocket.__init__: stores the hyperparameters unchanged; no
    validation is performed. -/
def DOWNPOURSocket.mk_init (keras_model worker_optimizer loss
    num_workers batch_size features_col label_col num_epoch : Nat)
    (learning_rate : Rat) (communication_window : Int) (host : Nat) :
    DOWNPOURSocket :=
  { toAsynchronousDistributedTrainer :=
      AsynchronousDistributedTrainer.mk_init keras_model worker_optimizer loss
        num_workers batch_size features_col label_col num_epoch
    learning_rate := learning_rate
    communication_window := communication_window
    master_host := host
    master_port := 5000 }

/-- DOWNPOURSocket inherits train from AsynchronousDistributedTrainer. -/
def DOWNPOURSocket.train (s : DOWNPOURSocket) (df : Dataset) (shuffle : Bool)
    (epochFails : Nat → Bool) (tStart tEnd : Int) :
    TrainRun AsynchronousDistributedTrainer :=
  s.toAsynchronousDistributedTrainer.train df shuffle epochFails tStart tEnd

/-- State of AEASGD (trainers.py lines 287-313). -/
structure AEASGD extends AsynchronousDistributedTrainer where
  communication_window : Int
  rho : Rat
  learning_rate : Rat
  master_host : Nat
  master_port : Nat
deriving DecidableEq, Repr

/-- AEASGD.__init__: stores the hyperparameters unchanged; no validation
    is performed. -/
def AEASGD.mk_init (keras_model worker_optimizer loss
    num_workers batch_size features_col label_col num_epoch : Nat)
    (communication_window : Int) (rho learning_rate : Rat) (host : Nat) :
    AEASGD :=
  { toAsynchronousDistributedTrainer :=
      AsynchronousDistributedTrainer.mk_init keras_model worker_optimizer loss
        num_workers batch_size features_col label_col num_epoch
    communication_window := communication_window
    rho := rho
    learning_rate := learning_rate
    master_host := host
    master_port := 5000 }

/-- AEASGD inherits train from AsynchronousDistributedTrainer. -/
def AEASGD.train (s : AEASGD) (df : Dataset) (shuffle : Bool)
    (epochFails : Nat → Bool) (tStart tEnd : Int) :
    TrainRun AsynchronousDistributedTrainer :=
  s.toAsynchronousDistributedTrainer.train df shuffle epochFails tStart tEnd

/-- State of EAMSGD (trainers.py lines 315-343). -/
structure EAMSGD extends AsynchronousDistributedTrainer where
  communication_window : Int
  rho : Rat
  learning_rate : Rat
  momentum : Rat
  master_host : Nat
  master_port : Nat
deriving DecidableEq, Repr

/-- EAMSGD.__init__: stores the hyperparameters unchanged; no validation
    is performed. -/
def EAMSGD.mk_init (keras_model worker_optimizer loss
    num_workers batch_size features_col label_col num_epoch : Nat)
    (communication_window : Int) (rho learning_rate momentum : Rat)
    (host : Nat) : EAMSGD :=
  { toAsynchronousDistributedTrainer :=
      AsynchronousDistributedTrainer.mk_init keras_model worker_optimizer loss
        num_workers batch_size features_col label_col num_epoch
    communication_window := communication_window
    rho := rho
    learning_rate := learning_rate
    momentum := momentum
    master_host := host
    master_port := 5000 }

/-- EAMSGD inherits train from AsynchronousDistributedTrainer. -/
def EAMSGD.train (s : EAMSGD) (df : Dataset) (shuffle : Bool)
    (epochFails : Nat → Bool) (tStart tEnd : Int) :
    TrainRun AsynchronousDistributedTrainer :=
  s.toAsynchronousDistributedTrainer.train df shuffle epochFails tStart tEnd

/-! Helper lemmas about the orchestration paths. -/

/-- After train allocates a fresh parameter server, start_service always
    succeeds and leaves the service thread handle set. -/
lemma start_service_alloc (s : DistributedTrainer) :
    DistributedTrainer.start_service { s with parameter_server := some () } =
      Except.ok { s with parameter_server := some (),
                         parameter_server_thread := some () } := by
  cases h : s.parameter_server_thread <;>
    simp [DistributedTrainer.start_service, DistributedTrainer.stop_service, h]

/-- The dataframe a base distributed train call (shuffle=False) operates
    on after the partition adjustment. -/
lemma train_false_dataframe (s : DistributedTrainer) (df : Dataset)
    (f : Nat → Bool) (tS tEnd : Int) :
    (s.train df false f tS tEnd).dataframe =
      if df.numPartitions > s.num_workers then df.coalesce s.num_workers
      else df.repartition s.num_workers := by
  simp only [DistributedTrainer.train, start_service_alloc, Bool.false_eq_true,
    if_false]
  split <;> split <;> simp_all [DistributedTrainer.stop_service]

/-- The dataframe an asynchronous train call (shuffle=False) operates on
    after the partition adjustment. -/
lemma async_train_false_dataframe (s : AsynchronousDistributedTrainer)
    (df : Dataset) (f : Nat → Bool) (tS tEnd : Int) :
    (s.train df false f tS tEnd).dataframe =
      if df.numPartitions > s.parallelism_factor * s.num_workers then
        df.coalesce (s.parallelism_factor * s.num_workers)
      else df.repartition (s.parallelism_factor * s.num_workers) := by
  simp only [AsynchronousDistributedTrainer.train, start_service_alloc,
    Bool.false_eq_true, if_false]
  split <;> split <;> simp_all [DistributedTrainer.stop_service]

/-- The partition count reached by an asynchronous train call. -/
lemma async_train_false_numPartitions (s : AsynchronousDistributedTrainer)
    (df : Dataset) (f : Nat → Bool) (tS tEnd : Int) :
    (s.train df false f tS tEnd).dataframe.numPartitions =
      s.parallelism_factor * s.num_workers := by
  rw [async_train_false_dataframe]
  split
  · simp_all [Dataset.coalesce]
    omega
  · simp_all [Dataset.repartition]

/-- If some epoch in range fails, the epoch loop returns the worker
    failure. -/
lemma runEpochs_error (f : Nat → Bool) (n : Nat) :
    ∀ (k i : Nat), (∃ j, j < k ∧ f (i + j) = true) →
      (runEpochs f n i k).2 = Except.error PyError.workerError := by
  intro k
  induction k with
  | zero =>
    rintro i ⟨j, hj, -⟩
    exact absurd hj (Nat.not_lt_zero j)
  | succ k ih =>
    rintro i ⟨j, hj, hf⟩
    by_cases h0 : f i = true
    · simp [runEpochs, h0]
    · have hnext : ∃ j2, j2 < k ∧ f (i + 1 + j2) = true := by
        cases j with
        | zero => exact absurd (by simpa using hf) h0
        | succ j2 =>
          refine ⟨j2, by omega, ?_⟩
          rw [show i + 1 + j2 = i + (j2 + 1) from by omega]
          exact hf
      simp [runEpochs, h0, ih (i + 1) hnext]

/-- On a base train call whose epoch loop fails, the failure propagates
    as the outcome and the service thread handle is left set. -/
lemma train_false_fail (s : DistributedTrainer) (df : Dataset)
    (f : Nat → Bool) (tS tEnd : Int)
    (h : ∃ i, i < s.num_epoch ∧ f i = true) :
    (s.train df false f tS tEnd).outcome =
      Except.error PyError.workerError ∧
    (s.train df false f tS tEnd).trainer.parameter_server_thread =
      some () := by
  have herr : ∀ n, (runEpochs f n 0 s.num_epoch).2 =
      Except.error PyError.workerError := fun n =>
    runEpochs_error f n s.num_epoch 0 (by simpa using h)
  simp only [DistributedTrainer.train, start_service_alloc,
    Bool.false_eq_true, if_false]
  constructor <;> simp [herr]

/-- On an asynchronous train call whose epoch loop fails, the failure
    propagates as the outcome and the service thread handle is left
    set. -/
lemma async_train_false_fail (s : AsynchronousDistributedTrainer)
    (df : Dataset) (f : Nat → Bool) (tS tEnd : Int)
    (h : ∃ i, i < s.num_epoch ∧ f i = true) :
    (s.train df false f tS tEnd).outcome =
      Except.error PyError.workerError ∧
    (s.train df false f tS tEnd).trainer.parameter_server_thread =
      some () := by
  have herr : ∀ n, (runEpochs f n 0 s.num_epoch).2 =
      Except.error PyError.workerError := fun n =>
    runEpochs_error f n s.num_epoch 0 (by simpa using h)
  simp only [AsynchronousDistributedTrainer.train, start_service_alloc,
    Bool.false_eq_true, if_false]
  constructor <;> simp [herr]

/-! Claim theorems. -/

/-- C1: every distributed train call (base variant with factor 1,
    asynchronous variant with its parallelism factor) adjusts the
    dataset to exactly num_workers times the factor partitions before
    the epoch loop: it coalesces down when the original partition count
    exceeds the target and repartitions otherwise. -/
theorem partition_adjustment_targets_workers_times_factor :
    (∀ (s : DistributedTrainer) (df : Dataset) (f : Nat → Bool)
       (tS tEnd : Int),
      (s.train df false f tS tEnd).dataframe.numPartitions =
        s.num_workers * 1 ∧
      (s.train df false f tS tEnd).dataframe.ops.head? =
        some (if df.numPartitions > s.num_workers * 1
              then DatasetOp.coalesceOp (s.num_workers * 1)
              else DatasetOp.repartitionOp (s.num_workers * 1))) ∧
    (∀ (a : AsynchronousDistributedTrainer) (df : Dataset) (f : Nat → Bool)
       (tS tEnd : Int),
      (a.train df false f tS tEnd).dataframe.numPartitions =
        a.num_workers * a.parallelism_factor ∧
      (a.train df false f tS tEnd).dataframe.ops.head? =
        some (if df.numPartitions > a.num_workers * a.parallelism_factor
              then DatasetOp.coalesceOp (a.num_workers * a.parallelism_factor)
              else DatasetOp.repartitionOp
                     (a.num_workers * a.parallelism_factor))) := by
  constructor
  · intro s df f tS tEnd
    simp only [train_false_dataframe, Nat.mul_one]
    by_cases h : df.numPartitions > s.num_workers
    · simp [h, Dataset.coalesce, min_eq_right (le_of_lt h)]
    · simp [h, Dataset.repartition]
  · intro a df f tS tEnd
    have hmc : a.num_workers * a.parallelism_factor =
        a.parallelism_factor * a.num_workers := Nat.mul_comm _ _
    rw [hmc]
    simp only [async_train_false_dataframe]
    by_cases h : df.numPartitions > a.parallelism_factor * a.num_workers
    · simp [h, Dataset.coalesce, min_eq_right (le_of_lt h)]
    · simp [h, Dataset.repartition]

/-- C2 counterexample: a staleness-bounded (DOWNPOUR) trainer with
    num_workers=4, communication_window=2, num_epoch=1 run on a dataset
    of 10 partitions does NOT coalesce to 4 partitions with 4 worker
    invocations: DOWNPOUR inherits parallelism_factor 2, so the target
    is 8. -/
theorem downpour_ten_partitions_not_coalesced_to_four :
    ¬(((DOWNPOUR.mk_init 0 0 0 4 32 0 0 1 (1 / 100) 2 0).train
         ⟨10, []⟩ false (fun _ => false) 0 1).dataframe.numPartitions = 4 ∧
      ((DOWNPOUR.mk_init 0 0 0 4 32 0 0 1 (1 / 100) 2 0).train
         ⟨10, []⟩ false (fun _ => false) 0 1).invocations = 4) := by
  decide

/-- C2 amended: the same scenario coalesces the dataset to exactly 8
    partitions (2 times num_workers, from the inherited parallelism
    factor) and performs exactly 8 parallel worker invocations. -/
theorem downpour_ten_partitions_coalesced_to_eight :
    ((DOWNPOUR.mk_init 0 0 0 4 32 0 0 1 (1 / 100) 2 0).train
       ⟨10, []⟩ false (fun _ => false) 0 1).dataframe.numPartitions = 8 ∧
    ((DOWNPOUR.mk_init 0 0 0 4 32 0 0 1 (1 / 100) 2 0).train
       ⟨10, []⟩ false (fun _ => false) 0 1).dataframe.ops.head? =
      some (DatasetOp.coalesceOp 8) ∧
    ((DOWNPOUR.mk_init 0 0 0 4 32 0 0 1 (1 / 100) 2 0).train
       ⟨10, []⟩ false (fun _ => false) 0 1).invocations = 8 ∧
    ((DOWNPOUR.mk_init 0 0 0 4 32 0 0 1 (1 / 100) 2 0).train
       ⟨10, []⟩ false (fun _ => false) 0 1).outcome = Except.ok () := by
  exact ⟨by decide, by decide, by decide, rfl⟩

/-- C3: calling train with shuffle=True does not apply a shuffle
    transform: the boolean parameter shuffle shadows the shuffle helper
    from distkeras.utils, so shuffle(dataframe) calls the boolean and
    raises TypeError before any partition adjustment; the dataframe
    handle is untouched and no worker is invoked. -/
theorem train_shuffle_true_raises_type_error :
    (∀ (s : DistributedTrainer) (df : Dataset) (f : Nat → Bool)
       (tS tEnd : Int),
      (s.train df true f tS tEnd).outcome =
        Except.error PyError.typeErrorBoolNotCallable ∧
      (s.train df true f tS tEnd).dataframe = df ∧
      (s.train df true f tS tEnd).invocations = 0) ∧
    (∀ (a : AsynchronousDistributedTrainer) (df : Dataset) (f : Nat → Bool)
       (tS tEnd : Int),
      (a.train df true f tS tEnd).outcome =
        Except.error PyError.typeErrorBoolNotCallable ∧
      (a.train df true f tS tEnd).dataframe = df ∧
      (a.train df true f tS tEnd).invocations = 0) ∧
    (∀ (m : ModelAveragingTrainer) (df : Dataset) (tS : Int),
      (m.train df true tS).outcome =
        Except.error PyError.typeErrorBoolNotCallable ∧
      (m.train df true tS).dataframe = df ∧
      (m.train df true tS).invocations = 0) := by
  refine ⟨fun s df f tS tEnd => ?_, fun a df f tS tEnd => ?_,
    fun m df tS => ?_⟩
  · simp [DistributedTrainer.train, start_service_alloc]
  · simp [AsynchronousDistributedTrainer.train, start_service_alloc]
  · simp [ModelAveragingTrainer.train]

/-- C4 counterexample: on a worker failure the service thread is left
    running (the handle is not cleared), refuting that stop_service is
    attempted before the error surfaces. -/
theorem worker_failure_leaves_service_thread_running_example :
    ((DistributedTrainer.mk_init 0 0 0 2 32 0 0 1).train ⟨5, []⟩ false
       (fun _ => true) 0 1).trainer.parameter_server_thread ≠ none ∧
    ((DistributedTrainer.mk_init 0 0 0 2 32 0 0 1).train ⟨5, []⟩ false
       (fun _ => true) 0 1).outcome =
      Except.error PyError.workerError := by
  exact ⟨by decide, rfl⟩

/-- C4 amended: if any epoch dispatch raises a worker failure, the
    error propagates to the caller of train, but stop_service is NOT
    attempted: the parameter server service thread handle remains set,
    so the background service is left running. -/
theorem worker_failure_propagates_without_stop_service :
    (∀ (s : DistributedTrainer) (df : Dataset) (f : Nat → Bool)
       (tS tEnd : Int), (∃ i, i < s.num_epoch ∧ f i = true) →
      (s.train df false f tS tEnd).outcome =
        Except.error PyError.workerError ∧
      (s.train df false f tS tEnd).trainer.parameter_server_thread =
        some ()) ∧
    (∀ (a : AsynchronousDistributedTrainer) (df : Dataset) (f : Nat → Bool)
       (tS tEnd : Int), (∃ i, i < a.num_epoch ∧ f i = true) →
      (a.train df false f tS tEnd).outcome =
        Except.error PyError.workerError ∧
      (a.train df false f tS tEnd).trainer.parameter_server_thread =
        some ()) := by
  exact ⟨fun s df f tS tEnd h => train_false_fail s df f tS tEnd h,
    fun a df f tS tEnd h => async_train_false_fail a df f tS tEnd h⟩

/-- C4 witness: a concrete base trainer with one epoch and a failing
    worker. -/
theorem worker_failure_propagates_without_stop_service_witness :
    ((DistributedTrainer.mk_init 1 2 3 4 32 0 0 1).train ⟨9, []⟩ false
       (fun _ => true) 0 1).outcome =
      Except.error PyError.workerError ∧
    ((DistributedTrainer.mk_init 1 2 3 4 32 0 0 1).train ⟨9, []⟩ false
       (fun _ => true) 0 1).trainer.parameter_server_thread = some () :=
  worker_failure_propagates_without_stop_service.1
    (DistributedTrainer.mk_init 1 2 3 4 32 0 0 1) ⟨9, []⟩
    (fun _ => true) 0 1 ⟨0, by decide, rfl⟩

/-- C5 counterexample: set_history replaces the whole history, removing
    an existing record, so add_history is not the only operation of the
    interface that changes the history. -/
theorem set_history_replaces_records_example :
    (((Trainer.mk_init 0 0 0).add_history 7).set_history []).history =
      [] ∧
    ((Trainer.mk_init 0 0 0).add_history 7).history = [7] ∧
    ([] : List Int) ≠ [7] := by
  exact ⟨rfl, rfl, by decide⟩

/-- C5 amended: the history is empty after construction and add_history
    appends one record to the end; record_training_start and
    record_training_end leave it unchanged; but set_history replaces
    the entire sequence, so the interface is append-only except for
    set_history. -/
theorem history_append_only_except_set_history :
    (∀ km l wo, (Trainer.mk_init km l wo).history = []) ∧
    (∀ (t : Trainer) (r : Int),
      (t.add_history r).history = t.history ++ [r]) ∧
    (∀ (t : Trainer) (h : List Int), (t.set_history h).history = h) ∧
    (∀ (t : Trainer) (tS : Int),
      (t.record_training_start tS).history = t.history) ∧
    (∀ (t : Trainer) (tEnd : Int),
      (t.record_training_end tEnd).history = t.history) :=
  ⟨fun _ _ _ => rfl, fun _ _ => rfl, fun _ _ => rfl, fun _ _ => rfl,
    fun _ _ => rfl⟩

/-- C6 counterexample: stop_service on a freshly constructed
    distributed trainer raises (AttributeError on None) instead of
    being a safe no-op. -/
theorem stop_service_fresh_trainer_raises_example :
    (DistributedTrainer.mk_init 7 7 7 4 32 0 0 1).stop_service =
      Except.error PyError.attributeErrorNone ∧
    (DistributedTrainer.mk_init 7 7 7 4 32 0 0 1).stop_service ≠
      Except.ok (DistributedTrainer.mk_init 7 7 7 4 32 0 0 1) := by
  exact ⟨rfl, by simp [DistributedTrainer.stop_service,
    DistributedTrainer.mk_init]⟩

/-- C6 amended: whenever parameter_server_thread is None, stop_service
    raises an AttributeError (None.stop() on a fresh trainer, or
    None.join() when only the thread is absent); it is not a safe
    no-op. -/
theorem stop_service_none_thread_raises :
    ∀ (s : DistributedTrainer), s.parameter_server_thread = none →
      s.stop_service = Except.error PyError.attributeErrorNone := by
  intro s h
  unfold DistributedTrainer.stop_service
  cases hps : s.parameter_server <;> simp [h, hps]

/-- C6 witness: a freshly constructed distributed trainer has no
    service thread and stop_service raises on it. -/
theorem stop_service_none_thread_raises_witness :
    (DistributedTrainer.mk_init 0 0 0 2 32 0 0 1).stop_service =
      Except.error PyError.attributeErrorNone :=
  stop_service_none_thread_raises
    (DistributedTrainer.mk_init 0 0 0 2 32 0 0 1) rfl

/-- C7 counterexample: DOWNPOUR accepts learning_rate = -1 and
    communication_window = 0, and AEASGD accepts rho = -5, storing the
    invalid values instead of rejecting them at construction. -/
theorem downpour_accepts_invalid_hyperparameters_example :
    (DOWNPOUR.mk_init 0 0 0 2 32 0 0 1 (-1) 0 0).learning_rate = -1 ∧
    ¬(0 < (DOWNPOUR.mk_init 0 0 0 2 32 0 0 1 (-1) 0 0).learning_rate) ∧
    (DOWNPOUR.mk_init 0 0 0 2 32 0 0 1 (-1) 0 0).communication_window =
      0 ∧
    ¬(1 ≤ (DOWNPOUR.mk_init 0 0 0 2 32 0 0 1 (-1) 0
             0).communication_window) ∧
    (AEASGD.mk_init 0 0 0 2 32 0 0 1 32 (-5) 1 0).rho = -5 ∧
    ¬(0 ≤ (AEASGD.mk_init 0 0 0 2 32 0 0 1 32 (-5) 1 0).rho) := by
  refine ⟨rfl, by decide, rfl, by decide, rfl, by decide⟩

/-- C7 amended: the protocol-variant constructors perform no
    hyperparameter validation: every learning_rate,
    communication_window, rho and momentum value is accepted and stored
    verbatim. -/
theorem constructors_store_hyperparameters_unvalidated :
    ∀ (km wo l nw bs fc lc ne : Nat) (lr rho mom : Rat) (cw : Int)
      (host : Nat),
      ((DOWNPOUR.mk_init km wo l nw bs fc lc ne lr cw
          host).learning_rate = lr ∧
       (DOWNPOUR.mk_init km wo l nw bs fc lc ne lr cw
          host).communication_window = cw) ∧
      ((DOWNPOURSocket.mk_init km wo l nw bs fc lc ne lr cw
          host).learning_rate = lr ∧
       (DOWNPOURSocket.mk_init km wo l nw bs fc lc ne lr cw
          host).communication_window = cw) ∧
      ((AEASGD.mk_init km wo l nw bs fc lc ne cw rho lr
          host).communication_window = cw ∧
       (AEASGD.mk_init km wo l nw bs fc lc ne cw rho lr host).rho = rho ∧
       (AEASGD.mk_init km wo l nw bs fc lc ne cw rho lr
          host).learning_rate = lr) ∧
      ((EAMSGD.mk_init km wo l nw bs fc lc ne cw rho lr mom
          host).communication_window = cw ∧
       (EAMSGD.mk_init km wo l nw bs fc lc ne cw rho lr mom host).rho =
         rho ∧
       (EAMSGD.mk_init km wo l nw bs fc lc ne cw rho lr mom
          host).learning_rate = lr ∧
       (EAMSGD.mk_init km wo l nw bs fc lc ne cw rho lr mom
          host).momentum = mom) := by
  intros
  exact ⟨⟨rfl, rfl⟩, ⟨rfl, rfl⟩, ⟨rfl, rfl, rfl⟩, ⟨rfl, rfl, rfl, rfl⟩⟩

/-- C8: record_training_start resets the elapsed time to zero (so
    get_training_time before the matching end returns 0, and a second
    session is independent of the first); record_training_end stores
    end minus start, which is nonnegative whenever the end reading is
    not earlier than the start reading. -/
theorem training_time_bookkeeping :
    ∀ (t : Trainer) (tS tEnd : Int),
      ((t.record_training_start tS).get_training_time = 0) ∧
      (((t.record_training_start tS).record_training_end
          tEnd).get_training_time = tEnd - tS) ∧
      (tS ≤ tEnd →
        0 ≤ ((t.record_training_start tS).record_training_end
              tEnd).get_training_time) := by
  intro t tS tEnd
  refine ⟨rfl, rfl, fun h => ?_⟩
  simp only [Trainer.record_training_start, Trainer.record_training_end,
    Trainer.get_training_time]
  omega

/-- C8 witness: a concrete trainer timed from 1 to 5. -/
theorem training_time_bookkeeping_witness :
    0 ≤ (((Trainer.mk_init 0 0 0).record_training_start
           1).record_training_end 5).get_training_time :=
  (training_time_bookkeeping (Trainer.mk_init 0 0 0) 1 5).2.2 (by decide)

/-- C9: ModelAveragingTrainer.train with shuffle=False repartitions the
    dataset to exactly num_workers * 10 partitions, records the
    training start time, and raises NotImplementedError; it never
    returns a model, dispatches no worker, and never records a training
    end time. -/
theorem model_averaging_train_stub :
    ∀ (s : ModelAveragingTrainer) (df : Dataset) (tStart : Int),
      ((s.train df false tStart).dataframe.numPartitions =
        s.num_workers * 10) ∧
      ((s.train df false tStart).dataframe.ops.head? =
        some (DatasetOp.repartitionOp (s.num_workers * 10))) ∧
      ((s.train df false tStart).trainer.training_time_start = tStart) ∧
      ((s.train df false tStart).trainer.training_time = 0) ∧
      ((s.train df false tStart).trainer.training_time_end =
        s.training_time_end) ∧
      ((s.train df false tStart).invocations = 0) ∧
      ((s.train df false tStart).outcome =
        Except.error PyError.notImplementedError) := by
  intro s df t
  simp [ModelAveragingTrainer.train, Dataset.repartition,
    Trainer.record_training_start]

/-- C10: the four concrete protocol trainers are constructed with
    parallelism_factor 2 and inherit the parallelism-scaled train path,
    so without a prior set_parallelism_factor call their train targets
    2 * num_workers partitions. -/
theorem concrete_variants_inherit_parallelism_factor_two :
    ∀ (km wo l nw bs fc lc ne : Nat) (lr rho mom : Rat) (cw : Int)
      (host : Nat) (df : Dataset) (f : Nat → Bool) (tS tEnd : Int),
      ((DOWNPOUR.mk_init km wo l nw bs fc lc ne lr cw
          host).parallelism_factor = 2 ∧
       ((DOWNPOUR.mk_init km wo l nw bs fc lc ne lr cw host).train df
          false f tS tEnd).dataframe.numPartitions = 2 * nw) ∧
      ((DOWNPOURSocket.mk_init km wo l nw bs fc lc ne lr cw
          host).parallelism_factor = 2 ∧
       ((DOWNPOURSocket.mk_init km wo l nw bs fc lc ne lr cw host).train
          df false f tS tEnd).dataframe.numPartitions = 2 * nw) ∧
      ((AEASGD.mk_init km wo l nw bs fc lc ne cw rho lr
          host).parallelism_factor = 2 ∧
       ((AEASGD.mk_init km wo l nw bs fc lc ne cw rho lr host).train df
          false f tS tEnd).dataframe.numPartitions = 2 * nw) ∧
      ((EAMSGD.mk_init km wo l nw bs fc lc ne cw rho lr mom
          host).parallelism_factor = 2 ∧
       ((EAMSGD.mk_init km wo l nw bs fc lc ne cw rho lr mom host).train
          df false f tS tEnd).dataframe.numPartitions = 2 * nw) := by
  intros
  refine ⟨⟨rfl, ?_⟩, ⟨rfl, ?_⟩, ⟨rfl, ?_⟩, ⟨rfl, ?_⟩⟩ <;>
    simp [DOWNPOUR.train, DOWNPOURSocket.train, AEASGD.train,
      EAMSGD.train, async_train_false_numPartitions, DOWNPOUR.mk_init,
      DOWNPOURSocket.mk_init, AEASGD.mk_init, EAMSGD.mk_init,
      AsynchronousDistributedTrainer.mk_init,
      DistributedTrainer.mk_init]

end DistKeras
